import Mathlib

/-!
Verification of the "Life Explorer" repository: an express edge server
(`server/index.js`) and a React single-page frontend (`frontend/src/App.js`).

JavaScript strings are modelled as lists of characters (`JStr`).  The two
stateful frontend handlers (`fetchCards` and `swipe` in `SwipeDeck`) are
modelled as pure functions from a network-outcome oracle to the ordered trace
of their observable effects: React state updates (`setCards` / `setLoading`),
issued HTTP requests, `console.error` calls and error toasts.  The handlers
run sequentially with no interleaving (one active view, one in-flight
handler), so a functional state update `setCards(c => c.slice(1))` applied to
the closure value `cards` is recorded as the absolute update
`setCards cards.tail`.  The edge server's middleware chain is modelled as a
dispatch function evaluated in registration order.
-/

namespace Inspection

/-- A JavaScript string, modelled as its list of characters. -/
abbrev JStr := List Char

/-- An experience card as consumed by the frontend: `id`, `title`,
`description` and an optional `rationale`. -/
structure Card where
  id : JStr
  title : JStr
  description : JStr
  rationale : Option JStr
  deriving DecidableEq, Repr

/-- One HTTP request issued by the swipe-deck view: `POST /placer/swipe`,
`POST /placer/suggest` (with its `count` body field), or
`GET /placer/cards` (with its `limit` query parameter). -/
inductive ApiRequest where
  | swipePost (userId cardId direction : JStr)
  | suggestPost (userId : JStr) (count : Nat)
  | cardsGet (userId : JStr) (limit : Nat)
  deriving DecidableEq, Repr

/-- An observable effect of a frontend handler, in execution order. -/
inductive Event where
  | setCards (cs : List Card)
  | setLoading (b : Bool)
  | request (r : ApiRequest)
  | consoleError
  | toastError
  deriving DecidableEq, Repr

/-- Outcome of one axios call that the handler `await`s: it either resolves
(with a response payload that may be `null`/`undefined`) or rejects. -/
inductive FetchOutcome where
  | resolved (data : Option (List Card))
  | rejected
  deriving DecidableEq, Repr

/-- Models the JavaScript expression `r.data || []`. -/
def orEmpty : Option (List Card) → List Card
  | some cs => cs
  | none => []

/-- Network oracle for one `swipe` invocation: whether the swipe-recording
POST resolves, whether the top-up suggest POST resolves, and the outcome of
the replenishment `GET /placer/cards`. -/
structure SwipeNet where
  swipeOk : Bool
  suggestOk : Bool
  fetch : FetchOutcome
  deriving DecidableEq, Repr

/-- The effect trace of `swipe(direction)` in `SwipeDeck` (App.js lines
206–221).  Empty buffer: early return, no effects.  Otherwise: the optimistic
`setCards(c => c.slice(1))`, then the awaited `POST /placer/swipe`; a
rejection jumps to the catch block (`console.error` only).  On success the
closure value `cards` — the pre-removal buffer — is tested against the
low-water mark (`cards.length <= 3`); if low, `POST /placer/suggest` with
count 6 is awaited, then `GET /placer/cards` with limit 10, and the buffer is
replaced wholesale by `r.data || []`; any rejection in that chain jumps to
the same catch block. -/
def swipeEvents (userId direction : JStr) (cards : List Card) (net : SwipeNet) :
    List Event :=
  match cards with
  | [] => []
  | top :: rest =>
    Event.setCards rest ::
    Event.request (ApiRequest.swipePost userId top.id direction) ::
    (if net.swipeOk = false then [Event.consoleError]
     else if (top :: rest).length ≤ 3 then
       Event.request (ApiRequest.suggestPost userId 6) ::
       (if net.suggestOk = false then [Event.consoleError]
        else Event.request (ApiRequest.cardsGet userId 10) ::
          (match net.fetch with
           | FetchOutcome.rejected => [Event.consoleError]
           | FetchOutcome.resolved data => [Event.setCards (orEmpty data)]))
     else [])

/-- Network oracle for one `fetchCards` invocation: outcome of the first
`GET /placer/cards`, whether the first-batch suggest POST resolves, and the
outcome of the re-query. -/
structure FetchNet where
  firstFetch : FetchOutcome
  suggestOk : Bool
  secondFetch : FetchOutcome
  deriving DecidableEq, Repr

/-- The effect trace of `fetchCards` in `SwipeDeck` (App.js lines 181–199),
run on mount and by the manual Refresh button.  `setLoading(true)`, then
`GET /placer/cards` with limit 10; if the call resolves and `r.data || []` is
empty, `POST /placer/suggest` with count 8 is awaited and the cards are
re-queried, the buffer being set to the re-query's `r2.data || []`; if the
first result is non-empty it is stored directly.  Any rejection jumps to the
catch block (`console.error` plus an error toast).  The `finally` block ends
every path with `setLoading(false)`. -/
def fetchCardsEvents (userId : JStr) (net : FetchNet) : List Event :=
  Event.setLoading true ::
  Event.request (ApiRequest.cardsGet userId 10) ::
  (match net.firstFetch with
   | FetchOutcome.rejected =>
     [Event.consoleError, Event.toastError, Event.setLoading false]
   | FetchOutcome.resolved data =>
     if (orEmpty data).length = 0 then
       Event.request (ApiRequest.suggestPost userId 8) ::
       (if net.suggestOk = false then
          [Event.consoleError, Event.toastError, Event.setLoading false]
        else Event.request (ApiRequest.cardsGet userId 10) ::
          (match net.secondFetch with
           | FetchOutcome.rejected =>
             [Event.consoleError, Event.toastError, Event.setLoading false]
           | FetchOutcome.resolved d2 =>
             [Event.setCards (orEmpty d2), Event.setLoading false]))
     else [Event.setCards (orEmpty data), Event.setLoading false])

/-- The `SwipeDeck` component state: `cards` and `loading`. -/
structure ViewState where
  cards : List Card
  loading : Bool
  deriving DecidableEq, Repr

/-- Applying one effect to the component state. -/
def stepEvent (s : ViewState) : Event → ViewState
  | Event.setCards cs => { s with cards := cs }
  | Event.setLoading b => { s with loading := b }
  | _ => s

/-- The component state after a trace of effects. -/
def runEvents (s : ViewState) (evs : List Event) : ViewState :=
  evs.foldl stepEvent s

/-- The HTTP requests issued along a trace, in order. -/
def requestEvents (evs : List Event) : List ApiRequest :=
  evs.filterMap fun e =>
    match e with
    | Event.request r => some r
    | _ => none

/-- Recogniser for `POST /placer/suggest` requests of any count. -/
def isSuggestReq : ApiRequest → Bool
  | ApiRequest.suggestPost _ _ => true
  | _ => false

/-- Recogniser for `GET /placer/cards` requests of any limit. -/
def isCardsGetReq : ApiRequest → Bool
  | ApiRequest.cardsGet _ _ => true
  | _ => false

/-- Recogniser for `POST /placer/swipe` requests. -/
def isSwipeReq : ApiRequest → Bool
  | ApiRequest.swipePost _ _ _ => true
  | _ => false

/-- Requests issued by one `swipe` invocation. -/
def swipeRequests (userId direction : JStr) (cards : List Card)
    (net : SwipeNet) : List ApiRequest :=
  requestEvents (swipeEvents userId direction cards net)

/-- Buffer contents after one `swipe` invocation starting from buffer
`cards`. -/
def swipeFinalCards (userId direction : JStr) (cards : List Card)
    (net : SwipeNet) : List Card :=
  (runEvents ⟨cards, false⟩ (swipeEvents userId direction cards net)).cards

/-- Requests issued by one `fetchCards` invocation. -/
def fetchRequests (userId : JStr) (net : FetchNet) : List ApiRequest :=
  requestEvents (fetchCardsEvents userId net)

/-- Component state after one `fetchCards` invocation from state `init`. -/
def fetchFinalState (init : ViewState) (userId : JStr) (net : FetchNet) :
    ViewState :=
  runEvents init (fetchCardsEvents userId net)

/-- The JSX renders the "No experiences available yet." card exactly when
`!loading && cards.length === 0` (App.js line 227). -/
def rendersNoExperiences (s : ViewState) : Bool :=
  !s.loading && s.cards.isEmpty

/-! ### Sign-up form submission (App.js lines 56–87) -/

/-- Models the JavaScript `String.prototype.trim()`: whitespace characters
are removed from both ends (the whitespace class is modelled by
`Char.isWhitespace`). -/
def jsTrim (s : JStr) : JStr :=
  ((s.dropWhile Char.isWhitespace).reverse.dropWhile Char.isWhitespace).reverse

/-- Models the JavaScript `String.prototype.split(",")`: the string is cut at
every comma; the empty string yields `[""]`, and leading, trailing or
adjacent commas yield empty fields. -/
def splitOnComma : JStr → List JStr
  | [] => [[]]
  | c :: rest =>
    if c = ',' then [] :: splitOnComma rest
    else
      match splitOnComma rest with
      | [] => [[c]]
      | field :: fields => (c :: field) :: fields

/-- The interests pipeline of `submit` (App.js lines 60–64):
`form.interests_text.split(",").map(s => s.trim()).filter(Boolean).slice(0, 3)`.
`filter(Boolean)` keeps exactly the non-empty strings. -/
def interestsOf (text : JStr) : List JStr :=
  (((splitOnComma text).map jsTrim).filter (fun s => !s.isEmpty)).take 3

/-- The result of the JavaScript `Number(s)` conversion applied to the age
field.  No claim consumes the numeric (IEEE-754) value itself, so the
conversion is kept as a tagged constructor: what matters to the payload shape
is that a number, not the original string, is stored. -/
inductive JsNumber where
  | ofString (s : JStr)
  deriving DecidableEq, Repr

/-- The sign-up form state (App.js lines 28–40): every field is a free-text
string, initially empty. -/
structure SignupForm where
  first_name : JStr
  other_given_names : JStr
  last_name : JStr
  email : JStr
  phone_number : JStr
  education : JStr
  where_you_live : JStr
  age : JStr
  income_bracket : JStr
  interests_text : JStr
  ethnicity : JStr
  deriving DecidableEq, Repr

/-- Models `form.x || undefined` for a string field: the empty string is the
only falsy string, so a blank field becomes `undefined` — absent from the
serialized JSON — and any other value is passed through. -/
def blankToAbsent (s : JStr) : Option JStr :=
  if s.isEmpty then none else some s

/-- The JSON body sent to `POST /placer/signup`.  `Option` fields model
properties that are omitted when the corresponding expression is
`undefined`. -/
structure SignupPayload where
  first_name : JStr
  other_given_names : Option JStr
  last_name : JStr
  email : JStr
  phone_number : Option JStr
  education : Option JStr
  where_you_live : Option JStr
  age : Option JsNumber
  income_bracket : Option JStr
  interests : List JStr
  ethnicity : Option JStr
  deriving DecidableEq, Repr

/-- The payload object built by `submit` (App.js lines 65–77): required
fields pass through, optional string fields use `... || undefined`, and age
uses `form.age ? Number(form.age) : undefined`. -/
def signupPayload (form : SignupForm) : SignupPayload :=
  { first_name := form.first_name
    other_given_names := blankToAbsent form.other_given_names
    last_name := form.last_name
    email := form.email
    phone_number := blankToAbsent form.phone_number
    education := blankToAbsent form.education
    where_you_live := blankToAbsent form.where_you_live
    age := if form.age.isEmpty then none else some (JsNumber.ofString form.age)
    income_bracket := blankToAbsent form.income_bracket
    interests := interestsOf form.interests_text
    ethnicity := blankToAbsent form.ethnicity }

/-! ### Edge server (server/index.js) -/

/-- HTTP method of an incoming edge-server request. -/
inductive Method where
  | get
  | post
  deriving DecidableEq, Repr

/-- How the edge server disposes of a request: forwarded by the proxy
middleware (carrying the target base URL, the unchanged path, and the value
of the `X-Forwarded-Proto` header it sets), answered by the local
`/api/hello` or `/api/_debug` handler, served from the static build
directory, answered with the SPA fallback `index.html`, or left unhandled
(express's default 404). -/
inductive ServerAction where
  | proxied (target : JStr) (path : JStr) (forwardedProto : JStr)
  | helloJson
  | debugProbe
  | staticFile (path : JStr)
  | spaFallback
  | notFound
  deriving DecidableEq, Repr

/-- `leadsWith pat s` holds when `pat` is an initial segment of `s`. -/
def leadsWith : JStr → JStr → Bool
  | [], _ => true
  | _ :: _, [] => false
  | a :: pat, b :: s => a == b && leadsWith pat s

/-- Express mount-path matching for `app.use("/api", ...)`: the request path
is `/api` itself or continues at a `/` segment boundary. -/
def apiMounted (path : JStr) : Bool :=
  path == "/api".toList || leadsWith "/api/".toList path

/-- Truthiness of `process.env.BACKEND_URL`: `none` models an unset
variable; a set but empty value is falsy in `if (BACKEND_URL)` just like an
unset one. -/
def backendConfigured : Option JStr → Bool
  | none => false
  | some u => !u.isEmpty

/-- The routes registered after the (conditional) proxy, in registration
order (server/index.js lines 30–54): `GET /api/hello`, `GET /api/_debug`,
`express.static(buildPath)` (modelled by the predicate `staticHas` telling
which paths resolve to a file in the build directory), and the catch-all
`app.get("*")` serving `index.html`.  A non-GET request that reaches the end
of the chain gets express's default 404. -/
def handleLocal (m : Method) (path : JStr) (staticHas : JStr → Bool) :
    ServerAction :=
  if m = Method.get ∧ path = "/api/hello".toList then ServerAction.helloJson
  else if m = Method.get ∧ path = "/api/_debug".toList then ServerAction.debugProbe
  else if m = Method.get ∧ staticHas path = true then ServerAction.staticFile path
  else if m = Method.get then ServerAction.spaFallback
  else ServerAction.notFound

/-- The full middleware chain (server/index.js lines 15–54).  When
`BACKEND_URL` is truthy, `app.use("/api", createProxyMiddleware(...))` is
registered first: every request whose path mounts at `/api` — any method —
is forwarded to the backend with the path unchanged (the rewrite
`^/api → /api` is the identity) and `X-Forwarded-Proto: https` set by
`onProxyReq`.  All other requests fall through to the local routes. -/
def handleRequest (backendUrl : Option JStr) (m : Method) (path : JStr)
    (staticHas : JStr → Bool) : ServerAction :=
  match backendUrl with
  | some b =>
    if (!b.isEmpty && apiMounted path) = true then
      ServerAction.proxied b path "https".toList
    else handleLocal m path staticHas
  | none => handleLocal m path staticHas

/-- Outcome of the upstream probe `fetch` inside the `/api/_debug` handler:
resolved with some status and body text, or rejected with an error whose
`String(e)` rendering is recorded. -/
inductive UpstreamResult where
  | ok (status : Nat) (text : JStr)
  | failure (err : JStr)
  deriving DecidableEq, Repr

/-- The JSON body of a `/api/_debug` response: either an error object or the
probe report carrying the target base URL, the upstream status code, and the
truncated upstream body. -/
inductive DebugBody where
  | errorBody (error : JStr)
  | probeBody (target : JStr) (status : Nat) (body : JStr)
  deriving DecidableEq, Repr

/-- A `/api/_debug` response together with the upstream GET requests (by
URL) the handler performed while producing it. -/
structure DebugResponse where
  httpStatus : Nat
  body : DebugBody
  upstreamRequests : List JStr
  deriving DecidableEq, Repr

/-- The `GET /api/_debug` handler (server/index.js lines 36–46).  With a
falsy `BACKEND_URL` it returns 500 and an error body without contacting
anything.  Otherwise it performs one GET of `BACKEND_URL + "/api/placer/options"`;
if that resolves, `res.json` (status 200) echoes the target, the upstream
status, and `text.slice(0, 500)`; if it rejects, the catch block returns 500
with the stringified error. -/
def debugHandler (backendUrl : Option JStr) (upstream : UpstreamResult) :
    DebugResponse :=
  match backendUrl with
  | none => ⟨500, DebugBody.errorBody "BACKEND_URL unset".toList, []⟩
  | some b =>
    if b.isEmpty then ⟨500, DebugBody.errorBody "BACKEND_URL unset".toList, []⟩
    else
      let url := b ++ "/api/placer/options".toList
      match upstream with
      | UpstreamResult.ok status text =>
        ⟨200, DebugBody.probeBody b status (text.take 500), [url]⟩
      | UpstreamResult.failure e =>
        ⟨500, DebugBody.errorBody e, [url]⟩

/-! ### Concrete fixtures used by witnesses and counterexamples -/

/-- A concrete card fixture. -/
def cardA : Card := ⟨['a'], ['A'], [], none⟩

/-- A concrete card fixture. -/
def cardB : Card := ⟨['b'], ['B'], [], none⟩

/-- A concrete card fixture. -/
def cardC : Card := ⟨['c'], ['C'], [], none⟩

/-- A concrete card fixture. -/
def cardD : Card := ⟨['d'], ['D'], [], none⟩

/-! ### Helper lemmas -/

/-- A non-empty trimmed string contains a non-whitespace character: `jsTrim`
ends with `dropWhile Char.isWhitespace`, whose first element, when it exists,
is not whitespace. -/
lemma jsTrim_exists_not_whitespace (y : JStr) (h : jsTrim y ≠ []) :
    ∃ c ∈ jsTrim y, c.isWhitespace = false := by
  have hwne : (y.dropWhile Char.isWhitespace).reverse.dropWhile Char.isWhitespace ≠ [] := by
    intro hnil
    apply h
    unfold jsTrim
    rw [hnil, List.reverse_nil]
  have hl : 0 < ((y.dropWhile Char.isWhitespace).reverse.dropWhile Char.isWhitespace).length :=
    List.length_pos.mpr hwne
  refine ⟨((y.dropWhile Char.isWhitespace).reverse.dropWhile Char.isWhitespace).get ⟨0, hl⟩,
    ?_, ?_⟩
  · unfold jsTrim
    rw [List.mem_reverse]
    exact List.get_mem _ _ _
  · have hnw := List.dropWhile_get_zero_not (p := Char.isWhitespace)
      ((y.dropWhile Char.isWhitespace).reverse) hl
    simpa using hnw

/-- A non-empty list is not `isEmpty`. -/
lemma isEmpty_false_of_ne_nil (b : JStr) (hb : b ≠ []) : b.isEmpty = false := by
  simpa [List.isEmpty_iff] using hb

/-- With a truthy backend URL and a path mounting at `/api`, the proxy
middleware handles the request. -/
lemma handleRequest_proxy (b : JStr) (m : Method) (path : JStr)
    (staticHas : JStr → Bool) (hbe : b.isEmpty = false)
    (hm : apiMounted path = true) :
    handleRequest (some b) m path staticHas =
      ServerAction.proxied b path "https".toList := by
  show (if (!b.isEmpty && apiMounted path) = true
      then ServerAction.proxied b path "https".toList
      else handleLocal m path staticHas) =
    ServerAction.proxied b path "https".toList
  rw [hbe, hm]
  rfl

/-- With a set backend URL but a falsy value or a non-`/api` path, the
request falls through to the local routes. -/
lemma handleRequest_some_local (b : JStr) (m : Method) (path : JStr)
    (staticHas : JStr → Bool) (hm : (!b.isEmpty && apiMounted path) = false) :
    handleRequest (some b) m path staticHas = handleLocal m path staticHas := by
  show (if (!b.isEmpty && apiMounted path) = true
      then ServerAction.proxied b path "https".toList
      else handleLocal m path staticHas) =
    handleLocal m path staticHas
  rw [hm]
  rfl

/-- With no backend URL the proxy is never registered. -/
lemma handleRequest_none_local (m : Method) (path : JStr)
    (staticHas : JStr → Bool) :
    handleRequest none m path staticHas = handleLocal m path staticHas := rfl

/-- A GET outside the two local `/api` routes that resolves to a static
asset is served by `express.static`. -/
lemma handleLocal_static (path : JStr) (staticHas : JStr → Bool)
    (h1 : path ≠ "/api/hello".toList) (h2 : path ≠ "/api/_debug".toList)
    (hs : staticHas path = true) :
    handleLocal Method.get path staticHas = ServerAction.staticFile path := by
  unfold handleLocal
  rw [if_neg (fun h => h1 h.2), if_neg (fun h => h2 h.2), if_pos ⟨rfl, hs⟩]

/-- A GET outside the two local `/api` routes with no matching static asset
reaches the catch-all and is answered with `index.html`. -/
lemma handleLocal_fallback (path : JStr) (staticHas : JStr → Bool)
    (h1 : path ≠ "/api/hello".toList) (h2 : path ≠ "/api/_debug".toList)
    (hs : staticHas path = false) :
    handleLocal Method.get path staticHas = ServerAction.spaFallback := by
  unfold handleLocal
  rw [if_neg (fun h => h1 h.2), if_neg (fun h => h2 h.2),
    if_neg (fun h => by simp [hs] at h), if_pos rfl]

/-! ### Claim theorems -/

/-- Claim C4: for every value of the free-text interests field, the submitted
interests list — split on commas, entries trimmed, empty entries dropped, at
most the first 3 kept — has length at most 3 and contains no empty and no
whitespace-only entry (every entry has a non-whitespace character). -/
theorem interests_capped_trimmed_nonblank (text : JStr) :
    (interestsOf text).length ≤ 3 ∧
    ∀ s, s ∈ interestsOf text → s ≠ [] ∧ ∃ c ∈ s, c.isWhitespace = false := by
  constructor
  · unfold interestsOf
    exact List.length_take_le 3 _
  · intro s hs
    unfold interestsOf at hs
    have hs' := List.mem_of_mem_take hs
    rw [List.mem_filter] at hs'
    obtain ⟨hmem, hbool⟩ := hs'
    rw [List.mem_map] at hmem
    obtain ⟨y, _, rfl⟩ := hmem
    have hne : jsTrim y ≠ [] := by
      intro hnil
      rw [hnil] at hbool
      simp at hbool
    exact ⟨hne, jsTrim_exists_not_whitespace y hne⟩

/-- Witness for C4 at the concrete input `" ab, , cd "`: the pipeline keeps
`["ab", "cd"]`, and the entry `"ab"` is non-empty with a non-whitespace
character. -/
theorem interests_capped_trimmed_nonblank_witness :
    (interestsOf " ab, , cd ".toList).length ≤ 3 ∧
    (['a', 'b'] ≠ ([] : JStr) ∧ ∃ c ∈ ['a', 'b'], c.isWhitespace = false) :=
  ⟨(interests_capped_trimmed_nonblank " ab, , cd ".toList).1,
   (interests_capped_trimmed_nonblank " ab, , cd ".toList).2 ['a', 'b'] (by decide)⟩

/-- Claim C1 counterexample: the claim asserts that for every swipe on a
non-empty buffer of pre-removal length ≤ 3, exactly one suggest POST and one
replenishment GET occur.  It is false: the replenishment chain sits after the
awaited `POST /placer/swipe` inside the `try` block, so when that call
rejects (here on the three-card buffer `[cardA, cardB, cardC]`) the catch
swallows the error and no suggest and no replenishment fetch is issued. -/
theorem swipe_replenish_unconditional_false :
    ¬ (∀ (userId direction : JStr) (cards : List Card) (net : SwipeNet),
        cards ≠ [] → cards.length ≤ 3 →
        (swipeRequests userId direction cards net).countP isSuggestReq = 1 ∧
        (swipeRequests userId direction cards net).countP isCardsGetReq = 1) := by
  intro hclaim
  have h := hclaim ['u'] ['l'] [cardA, cardB, cardC]
    ⟨false, true, FetchOutcome.resolved (some [])⟩ (by decide) (by decide)
  exact absurd h.1 (by decide)

/-- Claim C1 (amended): the replenishment decision uses the pre-removal
buffer length, and — provided the swipe-recording POST resolves — a
pre-removal length ≤ 3 triggers exactly one `POST /placer/suggest` with
count 6, then (provided the suggest resolves) exactly one follow-up
`GET /placer/cards` with limit 10 whose resolved result replaces the buffer
wholesale; a pre-removal length > 3, or a rejected swipe-recording POST,
issues no suggest and no replenishment fetch.  Each branch is characterised
by the full request list and final buffer. -/
theorem swipe_replenishment_behavior (userId direction : JStr) (top : Card)
    (rest : List Card) (net : SwipeNet) :
    (net.swipeOk = false →
       swipeRequests userId direction (top :: rest) net =
         [ApiRequest.swipePost userId top.id direction] ∧
       swipeFinalCards userId direction (top :: rest) net = rest) ∧
    (net.swipeOk = true → 3 < rest.length + 1 →
       swipeRequests userId direction (top :: rest) net =
         [ApiRequest.swipePost userId top.id direction] ∧
       swipeFinalCards userId direction (top :: rest) net = rest) ∧
    (net.swipeOk = true → rest.length + 1 ≤ 3 →
       (net.suggestOk = false →
          swipeRequests userId direction (top :: rest) net =
            [ApiRequest.swipePost userId top.id direction,
             ApiRequest.suggestPost userId 6] ∧
          swipeFinalCards userId direction (top :: rest) net = rest) ∧
       (net.suggestOk = true →
          swipeRequests userId direction (top :: rest) net =
            [ApiRequest.swipePost userId top.id direction,
             ApiRequest.suggestPost userId 6,
             ApiRequest.cardsGet userId 10] ∧
          (net.fetch = FetchOutcome.rejected →
             swipeFinalCards userId direction (top :: rest) net = rest) ∧
          (∀ d, net.fetch = FetchOutcome.resolved d →
             swipeFinalCards userId direction (top :: rest) net = orEmpty d))) := by
  obtain ⟨sOk, gOk, f⟩ := net
  refine ⟨?_, ?_, ?_⟩
  · intro hs
    subst hs
    constructor <;>
      simp [swipeRequests, swipeEvents, requestEvents, swipeFinalCards, runEvents, stepEvent]
  · intro hs hlen
    subst hs
    have hcond : ¬(rest.length ≤ 2) := by omega
    constructor <;>
      simp [swipeRequests, swipeEvents, requestEvents, swipeFinalCards, runEvents,
        stepEvent, hcond]
  · intro hs hlen
    subst hs
    have hcond : rest.length ≤ 2 := by omega
    constructor
    · intro hg
      subst hg
      constructor <;>
        simp [swipeRequests, swipeEvents, requestEvents, swipeFinalCards, runEvents,
          stepEvent, hcond]
    · intro hg
      subst hg
      refine ⟨?_, ?_, ?_⟩
      · cases f <;>
          simp [swipeRequests, swipeEvents, requestEvents, hcond]
      · intro hf
        subst hf
        simp [swipeFinalCards, swipeEvents, runEvents, stepEvent, hcond]
      · intro d hf
        subst hf
        simp [swipeFinalCards, swipeEvents, runEvents, stepEvent, hcond]

/-- Witness for C1 (amended) on the three-card buffer with every call
resolving: the requests are the swipe POST, one suggest with count 6 and one
cards GET with limit 10, and the buffer is replaced wholesale by the fetched
`[cardD]`. -/
theorem swipe_replenishment_behavior_witness :
    swipeRequests ['u'] ['l'] [cardA, cardB, cardC]
        ⟨true, true, FetchOutcome.resolved (some [cardD])⟩ =
      [ApiRequest.swipePost ['u'] cardA.id ['l'],
       ApiRequest.suggestPost ['u'] 6,
       ApiRequest.cardsGet ['u'] 10] ∧
    swipeFinalCards ['u'] ['l'] [cardA, cardB, cardC]
        ⟨true, true, FetchOutcome.resolved (some [cardD])⟩ = [cardD] := by
  have h := swipe_replenishment_behavior ['u'] ['l'] cardA [cardB, cardC]
    ⟨true, true, FetchOutcome.resolved (some [cardD])⟩
  have h3 := (h.2.2 rfl (by decide)).2 rfl
  exact ⟨h3.1, h3.2.2 (some [cardD]) rfl⟩

/-- Claim C2 counterexample: the claim asserts that whenever the first fetch
returns zero cards, a suggest POST is made and the cards are then re-fetched.
It is false: the re-query sits after the awaited `POST /placer/suggest`
inside the `try` block, so when the suggest call rejects the catch swallows
the error and no second `GET /placer/cards` is issued — the whole invocation
performs a single cards GET. -/
theorem fetch_refetch_unconditional_false :
    ¬ (∀ (userId : JStr) (net : FetchNet) (d : Option (List Card)),
        net.firstFetch = FetchOutcome.resolved d → orEmpty d = [] →
        (fetchRequests userId net).countP isCardsGetReq = 2) := by
  intro hclaim
  have h := hclaim ['u']
    ⟨FetchOutcome.resolved (some []), false, FetchOutcome.resolved (some [])⟩
    (some []) rfl rfl
  exact absurd h (by decide)

/-- Claim C2 (amended): on mount and on the manual Refresh action (both run
the same `fetchCards`), a first fetch resolving with at least one card is
stored immediately with no suggest call; a first fetch resolving with zero
cards triggers exactly one `POST /placer/suggest` with count 8, and —
provided that suggest resolves — exactly one re-query with limit 10, whose
resolved result is displayed, the empty "no experiences" state (not an
error toast) being rendered when that result is still empty. -/
theorem fetch_cards_behavior (userId : JStr) (init : ViewState) (net : FetchNet) :
    (∀ d, net.firstFetch = FetchOutcome.resolved d → orEmpty d ≠ [] →
       fetchRequests userId net = [ApiRequest.cardsGet userId 10] ∧
       (fetchFinalState init userId net).cards = orEmpty d ∧
       Event.toastError ∉ fetchCardsEvents userId net) ∧
    (∀ d, net.firstFetch = FetchOutcome.resolved d → orEmpty d = [] →
       (fetchRequests userId net).countP isSuggestReq = 1 ∧
       ApiRequest.suggestPost userId 8 ∈ fetchRequests userId net ∧
       (net.suggestOk = false →
          fetchRequests userId net =
            [ApiRequest.cardsGet userId 10, ApiRequest.suggestPost userId 8]) ∧
       (net.suggestOk = true →
          fetchRequests userId net =
            [ApiRequest.cardsGet userId 10, ApiRequest.suggestPost userId 8,
             ApiRequest.cardsGet userId 10] ∧
          (∀ d2, net.secondFetch = FetchOutcome.resolved d2 →
             (fetchFinalState init userId net).cards = orEmpty d2 ∧
             Event.toastError ∉ fetchCardsEvents userId net ∧
             (orEmpty d2 = [] →
                rendersNoExperiences (fetchFinalState init userId net) = true)))) := by
  obtain ⟨f1, gOk, f2⟩ := net
  constructor
  · intro d hf hne
    subst hf
    have hz : ¬((orEmpty d).length = 0) := by
      simpa [List.length_eq_zero] using hne
    refine ⟨?_, ?_, ?_⟩ <;>
      simp [fetchRequests, fetchCardsEvents, requestEvents, fetchFinalState, runEvents,
        stepEvent, hz]
  · intro d hf hz'
    subst hf
    have hz : (orEmpty d).length = 0 := by simp [hz']
    refine ⟨?_, ?_, ?_, ?_⟩
    · cases gOk <;> cases f2 <;>
        simp [fetchRequests, fetchCardsEvents, requestEvents, hz, List.countP_cons,
          isSuggestReq]
    · cases gOk <;> cases f2 <;>
        simp [fetchRequests, fetchCardsEvents, requestEvents, hz]
    · intro hg
      subst hg
      simp [fetchRequests, fetchCardsEvents, requestEvents, hz]
    · intro hg
      subst hg
      refine ⟨?_, ?_⟩
      · cases f2 <;> simp [fetchRequests, fetchCardsEvents, requestEvents, hz]
      · intro d2 hf2
        subst hf2
        refine ⟨?_, ?_, ?_⟩ <;>
          simp [fetchFinalState, fetchCardsEvents, runEvents, stepEvent, hz,
            rendersNoExperiences]

/-- Witness for C2 (amended): with the first fetch resolving empty, the
suggest resolving and the re-query resolving empty again, the requests are
cards GET, suggest with count 8, cards GET, and the view ends not loading
with an empty buffer, rendering the "no experiences" state with no error
toast. -/
theorem fetch_cards_behavior_witness :
    (fetchRequests ['u']
       ⟨FetchOutcome.resolved (some []), true, FetchOutcome.resolved (some [])⟩).countP
        isSuggestReq = 1 ∧
    fetchRequests ['u']
        ⟨FetchOutcome.resolved (some []), true, FetchOutcome.resolved (some [])⟩ =
      [ApiRequest.cardsGet ['u'] 10, ApiRequest.suggestPost ['u'] 8,
       ApiRequest.cardsGet ['u'] 10] ∧
    rendersNoExperiences
        (fetchFinalState ⟨[], false⟩ ['u']
          ⟨FetchOutcome.resolved (some []), true, FetchOutcome.resolved (some [])⟩) =
      true := by
  have h := (fetch_cards_behavior ['u'] ⟨[], false⟩
    ⟨FetchOutcome.resolved (some []), true, FetchOutcome.resolved (some [])⟩).2
    (some []) rfl rfl
  have h4 := h.2.2.2 rfl
  exact ⟨h.1, h4.1, (h4.2 (some []) rfl).2.2 rfl⟩

/-- Claim C3: `swipe(direction)` on an empty buffer produces no effect at all
(no state update, no request); on a non-empty buffer its first two effects
are the optimistic removal of exactly the first card followed by the issue of
the swipe-recording POST, the removal is kept when that POST rejects, and in
every outcome the final buffer is either the optimistic tail or the wholesale
replacement by a resolved replenishment fetch — never a rollback performed by
the client. -/
theorem swipe_empty_noop_and_optimistic_removal (userId direction : JStr)
    (cards : List Card) (net : SwipeNet) :
    (cards = [] → swipeEvents userId direction cards net = []) ∧
    (∀ top rest, cards = top :: rest →
       (swipeEvents userId direction cards net).take 2 =
         [Event.setCards rest,
          Event.request (ApiRequest.swipePost userId top.id direction)] ∧
       (net.swipeOk = false → swipeFinalCards userId direction cards net = rest) ∧
       (swipeFinalCards userId direction cards net = rest ∨
        ∃ d, net.fetch = FetchOutcome.resolved d ∧
          swipeFinalCards userId direction cards net = orEmpty d)) := by
  constructor
  · intro h
    subst h
    rfl
  · intro top rest h
    subst h
    obtain ⟨sOk, gOk, f⟩ := net
    refine ⟨?_, ?_, ?_⟩
    · simp [swipeEvents]
    · intro hs
      subst hs
      simp [swipeFinalCards, swipeEvents, runEvents, stepEvent]
    · cases sOk
      · left
        simp [swipeFinalCards, swipeEvents, runEvents, stepEvent]
      · by_cases hcond : rest.length ≤ 2
        · cases gOk
          · left
            simp [swipeFinalCards, swipeEvents, runEvents, stepEvent, hcond]
          · cases f with
            | rejected =>
              left
              simp [swipeFinalCards, swipeEvents, runEvents, stepEvent, hcond]
            | resolved d =>
              right
              exact ⟨d, rfl, by
                simp [swipeFinalCards, swipeEvents, runEvents, stepEvent, hcond]⟩
        · left
          simp [swipeFinalCards, swipeEvents, runEvents, stepEvent, hcond]

/-- Witness for C3 on the four-card buffer with every call resolving: the
trace starts with the removal of exactly `cardA` and the swipe POST, and the
final buffer is the optimistic tail `[cardB, cardC, cardD]` (pre-removal
length 4 is above the low-water mark, so no replacement occurs). -/
theorem swipe_empty_noop_and_optimistic_removal_witness :
    (swipeEvents ['u'] ['l'] [cardA, cardB, cardC, cardD]
        ⟨true, true, FetchOutcome.resolved (some [])⟩).take 2 =
      [Event.setCards [cardB, cardC, cardD],
       Event.request (ApiRequest.swipePost ['u'] cardA.id ['l'])] ∧
    (swipeFinalCards ['u'] ['l'] [cardA, cardB, cardC, cardD]
        ⟨true, true, FetchOutcome.resolved (some [])⟩ = [cardB, cardC, cardD] ∨
     ∃ d, (⟨true, true, FetchOutcome.resolved (some [])⟩ : SwipeNet).fetch =
         FetchOutcome.resolved d ∧
       swipeFinalCards ['u'] ['l'] [cardA, cardB, cardC, cardD]
           ⟨true, true, FetchOutcome.resolved (some [])⟩ = orEmpty d) := by
  have h := (swipe_empty_noop_and_optimistic_removal ['u'] ['l']
    [cardA, cardB, cardC, cardD] ⟨true, true, FetchOutcome.resolved (some [])⟩).2
    cardA [cardB, cardC, cardD] rfl
  exact ⟨h.1, h.2.2⟩

/-- Claim C5: when the swipe-recording POST rejects, the only further effect
is a `console.error` — the full trace is the optimistic removal, the single
swipe POST (no retry) and the log; no error toast is shown and the removal is
not rolled back. -/
theorem swipe_record_failure_swallowed (userId direction : JStr) (top : Card)
    (rest : List Card) (net : SwipeNet) (hfail : net.swipeOk = false) :
    swipeEvents userId direction (top :: rest) net =
      [Event.setCards rest,
       Event.request (ApiRequest.swipePost userId top.id direction),
       Event.consoleError] ∧
    Event.toastError ∉ swipeEvents userId direction (top :: rest) net ∧
    swipeFinalCards userId direction (top :: rest) net = rest ∧
    (swipeRequests userId direction (top :: rest) net).countP isSwipeReq = 1 := by
  refine ⟨?_, ?_, ?_, ?_⟩ <;>
    simp [swipeEvents, swipeFinalCards, swipeRequests, requestEvents, runEvents,
      stepEvent, hfail, List.countP_cons, isSwipeReq]

/-- Witness for C5 at a concrete rejected swipe POST on `[cardA, cardB]`. -/
theorem swipe_record_failure_swallowed_witness :
    swipeEvents ['u'] ['r'] [cardA, cardB]
        ⟨false, true, FetchOutcome.resolved (some [])⟩ =
      [Event.setCards [cardB],
       Event.request (ApiRequest.swipePost ['u'] cardA.id ['r']),
       Event.consoleError] ∧
    swipeFinalCards ['u'] ['r'] [cardA, cardB]
        ⟨false, true, FetchOutcome.resolved (some [])⟩ = [cardB] := by
  have h := swipe_record_failure_swallowed ['u'] ['r'] cardA [cardB]
    ⟨false, true, FetchOutcome.resolved (some [])⟩ rfl
  exact ⟨h.1, h.2.2.1⟩

/-- Claim C6: every optional sign-up field left blank is omitted from the
payload (absent, never an empty string), a non-blank optional string field is
passed through unchanged, and a non-blank age is stored as the `Number`
conversion of the entered string rather than as the string. -/
theorem signup_blank_optionals_omitted (form : SignupForm) :
    (form.other_given_names = [] → (signupPayload form).other_given_names = none) ∧
    (form.other_given_names ≠ [] →
       (signupPayload form).other_given_names = some form.other_given_names) ∧
    (form.phone_number = [] → (signupPayload form).phone_number = none) ∧
    (form.education = [] → (signupPayload form).education = none) ∧
    (form.where_you_live = [] → (signupPayload form).where_you_live = none) ∧
    (form.income_bracket = [] → (signupPayload form).income_bracket = none) ∧
    (form.ethnicity = [] → (signupPayload form).ethnicity = none) ∧
    (form.age = [] → (signupPayload form).age = none) ∧
    (form.age ≠ [] →
       (signupPayload form).age = some (JsNumber.ofString form.age)) := by
  refine ⟨?_, ?_, ?_, ?_, ?_, ?_, ?_, ?_, ?_⟩ <;>
    intro h <;>
    simp [signupPayload, blankToAbsent, List.isEmpty_iff, h]

/-- Witness for C6 at a concrete form whose optional fields are blank and
whose age is `"42"`: the optional name field is absent and the age is the
converted number. -/
theorem signup_blank_optionals_omitted_witness :
    (signupPayload ⟨['f'], [], ['l'], ['e'], [], [], [], ['4', '2'], [],
        ['x'], []⟩).other_given_names = none ∧
    (signupPayload ⟨['f'], [], ['l'], ['e'], [], [], [], ['4', '2'], [],
        ['x'], []⟩).age = some (JsNumber.ofString ['4', '2']) := by
  have h := signup_blank_optionals_omitted
    ⟨['f'], [], ['l'], ['e'], [], [], [], ['4', '2'], [], ['x'], []⟩
  exact ⟨h.1 rfl, h.2.2.2.2.2.2.2.2 (by decide)⟩

/-- Claim C7: the `/api/_debug` handler answers HTTP 500 with body
`{error: "BACKEND_URL unset"}` and performs no upstream request when
`BACKEND_URL` is falsy; with a backend configured it performs exactly one
upstream GET (of `BACKEND_URL + "/api/placer/options"`), echoing in its JSON
body the upstream status code and the upstream body truncated to 500
characters when the probe resolves, and answering a 500 JSON error — instead
of throwing — when the probe rejects. -/
theorem debug_route_behavior (backendUrl : Option JStr) (upstream : UpstreamResult) :
    (backendConfigured backendUrl = false →
       debugHandler backendUrl upstream =
         ⟨500, DebugBody.errorBody "BACKEND_URL unset".toList, []⟩) ∧
    (∀ b, backendUrl = some b → b ≠ [] →
       (debugHandler backendUrl upstream).upstreamRequests =
         [b ++ "/api/placer/options".toList] ∧
       (∀ st text, upstream = UpstreamResult.ok st text →
          debugHandler backendUrl upstream =
            ⟨200, DebugBody.probeBody b st (text.take 500),
             [b ++ "/api/placer/options".toList]⟩) ∧
       (∀ e, upstream = UpstreamResult.failure e →
          debugHandler backendUrl upstream =
            ⟨500, DebugBody.errorBody e,
             [b ++ "/api/placer/options".toList]⟩)) := by
  constructor
  · intro hcfg
    match backendUrl with
    | none => rfl
    | some b =>
      have hb : b = [] := by
        simpa [backendConfigured, List.isEmpty_iff] using hcfg
      subst hb
      rfl
  · intro b hb hbne
    subst hb
    have hbe : b.isEmpty = false := by
      simpa [List.isEmpty_iff] using hbne
    refine ⟨?_, ?_, ?_⟩
    · cases upstream <;> simp [debugHandler, hbe]
    · intro st text hup
      subst hup
      simp [debugHandler, hbe]
    · intro e hup
      subst hup
      simp [debugHandler, hbe]

/-- Witness for C7: with `BACKEND_URL` unset the response is the 500
configuration error with no upstream request, and with a configured backend
whose probe resolves with status 404 and body `"hi"` the handler issues one
upstream GET and echoes status and body. -/
theorem debug_route_behavior_witness :
    debugHandler none (UpstreamResult.ok 200 "hi".toList) =
      ⟨500, DebugBody.errorBody "BACKEND_URL unset".toList, []⟩ ∧
    debugHandler (some ['b']) (UpstreamResult.ok 404 "hi".toList) =
      ⟨200, DebugBody.probeBody ['b'] 404 ("hi".toList.take 500),
       [['b'] ++ "/api/placer/options".toList]⟩ := by
  refine ⟨(debug_route_behavior none (UpstreamResult.ok 200 "hi".toList)).1 rfl, ?_⟩
  have h := (debug_route_behavior (some ['b']) (UpstreamResult.ok 404 "hi".toList)).2
    ['b'] rfl (by decide)
  exact h.2.1 404 "hi".toList rfl

/-- Claim C8: with a truthy backend URL, every request whose path mounts at
`/api` — regardless of method — is forwarded to the backend with the path
unchanged and `X-Forwarded-Proto: https` added; and a GET whose path is not
an API route (not proxied, not the two local `/api` handlers) is served from
the static build directory when it resolves to an asset, and answered with
the SPA fallback `index.html` otherwise. -/
theorem server_routing (backendUrl : Option JStr) (m : Method) (path : JStr)
    (staticHas : JStr → Bool) :
    (∀ b, backendUrl = some b → b ≠ [] → apiMounted path = true →
       handleRequest backendUrl m path staticHas =
         ServerAction.proxied b path "https".toList) ∧
    ((backendConfigured backendUrl = false ∨ apiMounted path = false) →
       path ≠ "/api/hello".toList → path ≠ "/api/_debug".toList →
       (staticHas path = true →
          handleRequest backendUrl Method.get path staticHas =
            ServerAction.staticFile path) ∧
       (staticHas path = false →
          handleRequest backendUrl Method.get path staticHas =
            ServerAction.spaFallback)) := by
  constructor
  · intro b hb hbne hmount
    subst hb
    exact handleRequest_proxy b m path staticHas (isEmpty_false_of_ne_nil b hbne) hmount
  · intro hcfg h1 h2
    have hloc : handleRequest backendUrl Method.get path staticHas =
        handleLocal Method.get path staticHas := by
      match backendUrl with
      | none => exact handleRequest_none_local Method.get path staticHas
      | some b =>
        rcases hcfg with hcfg | hcfg
        · have hb : b = [] := by
            simpa [backendConfigured, List.isEmpty_iff] using hcfg
          subst hb
          exact handleRequest_some_local [] Method.get path staticHas rfl
        · exact handleRequest_some_local b Method.get path staticHas
            (by rw [hcfg, Bool.and_false])
    constructor <;> intro hs
    · rw [hloc]
      exact handleLocal_static path staticHas h1 h2 hs
    · rw [hloc]
      exact handleLocal_fallback path staticHas h1 h2 hs

/-- Witness for C8: with backend `"b"` a POST to `/api/x` is proxied with the
path unchanged and the forwarded-protocol header, and with no backend a GET
to `/foo` that is not a static asset falls back to `index.html` while
`/app.css`, present as an asset, is served statically. -/
theorem server_routing_witness :
    handleRequest (some ['b']) Method.post "/api/x".toList (fun _ => false) =
      ServerAction.proxied ['b'] "/api/x".toList "https".toList ∧
    handleRequest none Method.get "/foo".toList (fun _ => false) =
      ServerAction.spaFallback ∧
    handleRequest none Method.get "/app.css".toList
        (fun p => decide (p = "/app.css".toList)) =
      ServerAction.staticFile "/app.css".toList := by
  refine ⟨(server_routing (some ['b']) Method.post "/api/x".toList
      (fun _ => false)).1 ['b'] rfl (by decide) (by decide), ?_, ?_⟩
  · exact ((server_routing none Method.get "/foo".toList (fun _ => false)).2
      (Or.inl rfl) (by decide) (by decide)).2 rfl
  · exact ((server_routing none Method.get "/app.css".toList
      (fun p => decide (p = "/app.css".toList))).2
      (Or.inl rfl) (by decide) (by decide)).1 (by decide)

/-- Claim C9 (implicit): the proxy middleware is registered before the local
`/api` handlers, so with a truthy backend URL every request to `/api/hello`
or `/api/_debug` — any method — is forwarded upstream and the local handlers
are unreachable; with a falsy backend URL those two GET routes are answered
locally. -/
theorem proxy_shadows_local_api_routes (b : JStr) (m : Method)
    (staticHas : JStr → Bool) (hb : b ≠ []) :
    handleRequest (some b) m "/api/hello".toList staticHas =
      ServerAction.proxied b "/api/hello".toList "https".toList ∧
    handleRequest (some b) m "/api/_debug".toList staticHas =
      ServerAction.proxied b "/api/_debug".toList "https".toList ∧
    (∀ u, backendConfigured u = false →
       handleRequest u Method.get "/api/hello".toList staticHas =
         ServerAction.helloJson ∧
       handleRequest u Method.get "/api/_debug".toList staticHas =
         ServerAction.debugProbe) := by
  have hbe : b.isEmpty = false := isEmpty_false_of_ne_nil b hb
  refine ⟨?_, ?_, ?_⟩
  · exact handleRequest_proxy b m "/api/hello".toList staticHas hbe (by decide)
  · exact handleRequest_proxy b m "/api/_debug".toList staticHas hbe (by decide)
  · intro u hcfg
    match u with
    | none => exact ⟨rfl, rfl⟩
    | some v =>
      have hv : v = [] := by
        simpa [backendConfigured, List.isEmpty_iff] using hcfg
      subst hv
      exact ⟨rfl, rfl⟩

/-- Witness for C9 with backend `"b"`: GETs to the two local routes are
proxied, and with `BACKEND_URL` unset they reach the local handlers. -/
theorem proxy_shadows_local_api_routes_witness :
    handleRequest (some ['b']) Method.get "/api/hello".toList (fun _ => false) =
      ServerAction.proxied ['b'] "/api/hello".toList "https".toList ∧
    handleRequest none Method.get "/api/hello".toList (fun _ => false) =
      ServerAction.helloJson := by
  have h := proxy_shadows_local_api_routes ['b'] Method.get (fun _ => false)
    (by decide)
  exact ⟨h.1, (h.2.2 none rfl).1⟩

/-- Claim C10 (implicit): every `fetchCards` invocation begins by setting the
loading flag and ends — on the success paths and on every failure path — by
clearing it, so the view is never left loading after the handler finishes. -/
theorem fetch_cards_loading_flag (userId : JStr) (init : ViewState) (net : FetchNet) :
    (fetchCardsEvents userId net).head? = some (Event.setLoading true) ∧
    (fetchCardsEvents userId net).getLast? = some (Event.setLoading false) ∧
    (fetchFinalState init userId net).loading = false := by
  obtain ⟨f1, gOk, f2⟩ := net
  refine ⟨rfl, ?_, ?_⟩ <;>
    cases f1 with
    | rejected =>
      simp [fetchCardsEvents, fetchFinalState, runEvents, stepEvent]
    | resolved d =>
      by_cases hz : (orEmpty d).length = 0 <;>
        cases gOk <;> cases f2 <;>
        simp [fetchCardsEvents, fetchFinalState, runEvents, stepEvent, hz]

end Inspection
